import Mathlib

set_option autoImplicit false

/-!
Shallow embedding of the query cache in `src/src/lib.rs` (module `utils`) of
`yew-query`.

Modelling conventions:
* Yew `Callback<()>` values and `FnPtr` fetch-function handles compare by
  `Rc::ptr_eq`, i.e. pointer identity; both are modelled as opaque `Nat`
  identifiers compared with `==`.
* `instant::now()` is modelled by passing the current time as an explicit
  `Int` parameter to the operations that read the clock.
* The user-supplied async fetch function is opaque; the value its future
  resolves to is an explicit `Except String TData` argument of `fetch`
  (`Ok data` / `Err err` in the Rust source).
* `Rc<RefCell<Query<TData>>>` cells are modelled by a heap: `ClientState.heap`
  is an append-only list of `Query` records and an `Rc` pointer is an index
  (address) into it.  `QueryClient.queries : Rc<RefCell<Vec<Rc<RefCell<…>>>>>`
  is the list of addresses `ClientState.queries`.  Removing a query from the
  vector (GC) drops the address from `queries`; the cell itself stays in the
  heap, matching `Rc` keeping the allocation alive for live `Subscriber`s.
* `web_sys` `set_timeout` / `clear_timeout` are modelled by
  `ClientState.pending`, the list of currently pending `(timer-id, captured
  query_key)` timers (the closure passed to `set_timeout` captures the key and
  the shared `queries` vector), with `nextTimer` the fresh-id counter.
  A timer firing is an explicit `fireTimer` transition.
* Emitting a callback (`cb.emit(())`, `subscriber.emit(())`) re-renders a UI
  component; it does not mutate any cache state, so notifications are modelled
  as returned traces of the callback ids emitted, in emission order.
-/

namespace YewQuery

/-- `Status` from `src/src/lib.rs` lines 171-180. -/
inductive Status (TData : Type) where
  | idle
  | loading
  | success (data : TData)
  | error (msg : String)
deriving DecidableEq, Repr

/-- `QueryState` from `src/src/lib.rs` lines 297-305. -/
structure QueryState (TData : Type) where
  status : Status TData
  is_fetching : Bool
  last_updated : Option Int
deriving DecidableEq, Repr

/-- `Query` from `src/src/lib.rs` lines 182-195.  The `client` back-reference
is dropped: the client-level effects of a `Query` method are modelled on
`ClientState` directly.  `query_fn` is the `FnPtr` identity. -/
structure Query (TData : Type) where
  state : QueryState TData
  query_fn : Nat
  subscribers : List (Nat × Nat)
  query_key : String
  cache_time : Int
  timeout : Option Nat
deriving DecidableEq, Repr

/-- `QueryOptions` from `src/src/lib.rs` lines 66-75 (with `query_fn` as a
`FnPtr` identity). -/
structure QueryOptions where
  query_key : String
  query_fn : Nat
  stale_time : Int
  cache_time : Int
deriving DecidableEq, Repr

/-- `Subscriber` from `src/src/lib.rs` lines 338-346: `query` is the address of
the shared `Rc<RefCell<Query<TData>>>` cell. -/
structure Subscriber where
  query : Nat
  stale_time : Int
  cache_time : Int
deriving DecidableEq, Repr

/-- The whole-world state: the heap of `Rc<RefCell<Query>>` cells, plus the
fields of `QueryClient` (lines 79-86: the `queries` vector as a list of
addresses, the cache-level `subscribers` as callback ids), plus the browser's
pending-timer table. -/
structure ClientState (TData : Type) where
  heap : List (Query TData)
  queries : List Nat
  subscribers : List Nat
  pending : List (Nat × String)
  nextTimer : Nat
deriving DecidableEq, Repr

variable {TData : Type}

/-- `query.borrow().query_key` for the cell at address `a`. -/
def keyAt (heap : List (Query TData)) (a : Nat) : Option String :=
  (heap.get? a).map (fun q => q.query_key)

/-- `queries.iter().find(|&query| query.borrow().query_key == query_key)`
(`src/src/lib.rs` lines 113-115 and 125-127): address of the first query in the
vector whose key matches. -/
def findQuery (σ : ClientState TData) (query_key : String) : Option Nat :=
  σ.queries.find? (fun a => keyAt σ.heap a == some query_key)

/-- `Query::set_state` (`src/src/lib.rs` lines 233-239): replace the state by
`updater state`, then emit every subscriber callback in vector order (then
`self.client.notify()`, which emits the cache-level callbacks and mutates
nothing).  Returns the updated query and the notification record: the new state
together with the entry-level callback ids emitted, in order. -/
def Query.set_state (q : Query TData) (updater : QueryState TData → QueryState TData) :
    Query TData × (QueryState TData × List Nat) :=
  let q' : Query TData := { q with state := updater q.state }
  (q', (q'.state, q'.subscribers.map (fun p => p.2)))

/-- The terminal status a fetch resolving with `r` writes
(`src/src/lib.rs` lines 210-222). -/
def termStatus (r : Except String TData) : Status TData :=
  match r with
  | .ok data => .success data
  | .error err => .error err

/-- The `last_updated` value a fetch resolving with `r` at time `t` leaves in
place of `old` (`src/src/lib.rs` lines 210-222: written on success, untouched
on error). -/
def termUpdated (r : Except String TData) (t : Int) (old : Option Int) : Option Int :=
  match r with
  | .ok _ => some t
  | .error _ => old

/-- `Query::fetch` (`src/src/lib.rs` lines 201-231): set `is_fetching = true`;
await the stored fetch function (its resolution is the argument `r`, the await
being the only suspension point); on `Ok data` set `status = Success(data)` and
`last_updated = Some(now())` (`t`), on `Err err` set `status = Error(err)`;
finally set `is_fetching = false`.  Each step notifies via `set_state`.
Returns the final query and the three notification records in order. -/
def Query.fetch (q : Query TData) (r : Except String TData) (t : Int) :
    Query TData × List (QueryState TData × List Nat) :=
  let r1 := q.set_state (fun old => { old with is_fetching := true })
  let r2 :=
    match r with
    | .ok data => r1.1.set_state (fun old =>
        { old with status := .success data, last_updated := some t })
    | .error err => r1.1.set_state (fun old => { old with status := .error err })
  let r3 := r2.1.set_state (fun old => { old with is_fetching := false })
  (r3.1, [r1.2, r2.2, r3.2])

/-- `create_query` (`src/src/lib.rs` lines 316-336): fresh query value with
`status = Idle`, `is_fetching = true`, `last_updated = None`, no subscribers,
no timer. -/
def create_query (options : QueryOptions) : Query TData :=
  { state := { status := .idle, is_fetching := true, last_updated := none }
    query_fn := options.query_fn
    subscribers := []
    query_key := options.query_key
    cache_time := options.cache_time
    timeout := none }

/-- The query value a cache miss registers: `create_query` followed by
`query.state.status = Status::Loading` (`src/src/lib.rs` lines 135-136). -/
def loading_query (options : QueryOptions) : Query TData :=
  { (create_query options : Query TData) with
      state := { (create_query options : Query TData).state with status := .loading } }

/-- `QueryClient::get_query` (`src/src/lib.rs` lines 122-143): look the key up
in the `queries` vector; if found, return a clone of the `Rc` (the same
address); otherwise build `create_query`, overwrite its status to `Loading`,
allocate it (fresh address = end of the heap), push the address onto the
vector, and return it. -/
def get_query (σ : ClientState TData) (options : QueryOptions) :
    ClientState TData × Nat :=
  match findQuery σ options.query_key with
  | some a => (σ, a)
  | none =>
      let addr := σ.heap.length
      ({ σ with
          heap := σ.heap ++ [loading_query options]
          queries := σ.queries ++ [addr] },
        addr)

/-- `create_query_observer` (`src/src/lib.rs` lines 400-414). -/
def create_query_observer (σ : ClientState TData) (options : QueryOptions) :
    ClientState TData × Subscriber :=
  let r := get_query σ options
  (r.1, { query := r.2, stale_time := options.stale_time, cache_time := options.cache_time })

/-- `Subscriber::get_result` (`src/src/lib.rs` lines 361-368): clone of the
shared cell's current state. -/
def get_result (σ : ClientState TData) (s : Subscriber) : Option (QueryState TData) :=
  (σ.heap.get? s.query).map (fun q => q.state)

/-- `Subscriber::fetch` (`src/src/lib.rs` lines 382-397): read the shared cell;
if `last_updated.is_none() || now() - last_updated.unwrap() > stale_time`, run
`let mut query = query.clone(); spawn_local(async move { query.fetch().await })`
— i.e. `Query::fetch` runs on a by-value CLONE of the query (the source marks
this line `// >> ISSUE OCCURS HERE`); the shared cell behind `self.query` is
never written, so the client state is returned unchanged.  Result: the state
after the call, whether a fetch was started, and the notification trace of the
spawned fetch (callbacks are `Rc`-shared, so the clone still emits them). -/
def subscriber_fetch (σ : ClientState TData) (s : Subscriber) (tnow : Int)
    (r : Except String TData) :
    ClientState TData × Bool × List (QueryState TData × List Nat) :=
  match σ.heap.get? s.query with
  | none => (σ, false, [])
  | some query =>
      let stale : Bool :=
        match query.state.last_updated with
        | none => true
        | some lu => decide (tnow - lu > s.stale_time)
      if stale then
        (σ, true, (Query.fetch query r tnow).2)
      else
        (σ, false, [])

/-- `QueryClient::notify` (`src/src/lib.rs` lines 145-149): emit every
cache-level subscriber callback in order; no state changes. -/
def client_notify (σ : ClientState TData) : List Nat :=
  σ.subscribers

/-- `QueryClient::subscribe` (`src/src/lib.rs` lines 151-153). -/
def client_subscribe (σ : ClientState TData) (callback : Nat) : ClientState TData :=
  { σ with subscribers := σ.subscribers ++ [callback] }

/-- `QueryClient::unsubscribe` (`src/src/lib.rs` lines 155-159):
`retain(|subscriber| subscriber.clone() == callback)` — the vector RETAINS the
callbacks equal to the one passed and drops all others. -/
def client_unsubscribe (σ : ClientState TData) (callback : Nat) : ClientState TData :=
  { σ with subscribers := σ.subscribers.filter (fun s => s == callback) }

/-- `Query::schedule_query_cleanup` (`src/src/lib.rs` lines 262-286): register
a `setTimeout` whose closure captures `query_key` and the shared `queries`
vector (firing is the `fireTimer` transition below), and store the new timer
handle in `self.timeout`.  The previously stored handle is OVERWRITTEN, not
cleared: any prior pending timer stays pending. -/
def schedule_query_cleanup (σ : ClientState TData) (a : Nat) : ClientState TData :=
  match σ.heap.get? a with
  | none => σ
  | some q =>
      let tid := σ.nextTimer
      { σ with
          heap := σ.heap.set a { q with timeout := some tid }
          pending := σ.pending ++ [(tid, q.query_key)]
          nextTimer := tid + 1 }

/-- `Query::unschedule_query_cleanup` (`src/src/lib.rs` lines 288-294): if a
timer handle is stored, `clear_timeout` it (remove it from the pending table);
the stored `timeout` field itself is NOT reset to `None`. -/
def unschedule_query_cleanup (σ : ClientState TData) (a : Nat) : ClientState TData :=
  match σ.heap.get? a with
  | none => σ
  | some q =>
      match q.timeout with
      | none => σ
      | some tid => { σ with pending := σ.pending.filter (fun p => p.1 ≠ tid) }

/-- `Query::subscribe` (`src/src/lib.rs` lines 241-244): push the
`(subscriber, callback)` pair, then `unschedule_query_cleanup`. -/
def query_subscribe (σ : ClientState TData) (a : Nat) (sub callback : Nat) :
    ClientState TData :=
  match σ.heap.get? a with
  | none => σ
  | some q =>
      unschedule_query_cleanup
        { σ with heap := σ.heap.set a { q with subscribers := q.subscribers ++ [(sub, callback)] } }
        a

/-- `Query::unsubscribe` (`src/src/lib.rs` lines 246-260):
`filter(|(_, cb)| cb.clone() == callback)` — the new subscriber vector KEEPS
exactly the pairs whose callback equals the one passed and drops all others;
if the resulting vector is empty, `schedule_query_cleanup`. -/
def query_unsubscribe (σ : ClientState TData) (a : Nat) (callback : Nat) :
    ClientState TData :=
  match σ.heap.get? a with
  | none => σ
  | some q =>
      let subs := q.subscribers.filter (fun p => p.2 == callback)
      let σ' : ClientState TData :=
        { σ with heap := σ.heap.set a { q with subscribers := subs } }
      if subs.isEmpty then schedule_query_cleanup σ' a else σ'

/-- A pending cleanup timer `tid` firing (the closure built in
`schedule_query_cleanup`, `src/src/lib.rs` lines 270-277): retain in the
`queries` vector only the queries whose `query_key` differs from the captured
key (no emptiness re-check of the entry's subscribers), then `client.notify()`.
Returns the new state and the cache-level callback ids notified (`[]` if `tid`
was not pending). -/
def fireTimer (σ : ClientState TData) (tid : Nat) : ClientState TData × List Nat :=
  match σ.pending.find? (fun p => p.1 == tid) with
  | none => (σ, [])
  | some p =>
      ({ σ with
          queries := σ.queries.filter (fun a => ¬ (keyAt σ.heap a == some p.2))
          pending := σ.pending.filter (fun q => q.1 ≠ tid) },
        σ.subscribers)

/-- `QueryClient::invalidate_queries` (`src/src/lib.rs` lines 111-120): find
the first query whose key matches; if found, `borrow_mut().fetch().await` on
the SHARED cell (the fetch resolution `r` and the completion time `t` are
explicit); else do nothing.  Returns the new state and the fetch's
notification trace. -/
def invalidate_queries (σ : ClientState TData) (query_key : String)
    (r : Except String TData) (t : Int) :
    ClientState TData × List (QueryState TData × List Nat) :=
  match findQuery σ query_key with
  | none => (σ, [])
  | some a =>
      match σ.heap.get? a with
      | none => (σ, [])
      | some q =>
          let res := Query.fetch q r t
          ({ σ with heap := σ.heap.set a res.1 }, res.2)

/-- C4: for every invocation of `Query::fetch`, if the stored fetch function
resolves with `Ok data` the final state is `Success(data)` with
`last_updated = Some(now())`; if it resolves with `Err m` the final status is
`Error(m)` and `last_updated` is unchanged; in both cases `is_fetching` is
`false` when `fetch` completes.  (`fetch` is a total function of the resolved
`Except` value, so every failure of the fetch function is captured as state
and no exception escapes.) -/
theorem c4_fetch_terminal_state (q : Query TData) (t : Int) :
    (∀ d : TData, ((Query.fetch q (Except.ok d) t).1).state =
      { status := Status.success d, is_fetching := false, last_updated := some t }) ∧
    (∀ m : String, ((Query.fetch q (Except.error m) t).1).state =
      { status := Status.error m, is_fetching := false,
        last_updated := q.state.last_updated }) := by
  constructor <;> intro x <;> simp [Query.fetch, Query.set_state]

/-- C7: during a single `Query::fetch`, every state-change notification emits
the subscriber callbacks in subscription (vector) order, and the
`is_fetching = true` notification (trace position 0) precedes the terminal
success/error notification (trace position 1) for every observer. -/
theorem c7_notification_order (q : Query TData) (r : Except String TData) (t : Int) :
    ((Query.fetch q r t).2.map (fun p => p.2) =
      [q.subscribers.map (fun p => p.2), q.subscribers.map (fun p => p.2),
        q.subscribers.map (fun p => p.2)]) ∧
    ((Query.fetch q r t).2.map (fun p => p.1.is_fetching) = [true, true, false]) ∧
    ((Query.fetch q r t).2.map (fun p => p.1.status) =
      [q.state.status, termStatus r, termStatus r]) := by
  cases r <;> simp [Query.fetch, Query.set_state, termStatus]

/-- C10: `Query::fetch` never writes `Loading`, and each update changes only
the fields it names: the first update toggles only `is_fetching` (so while a
re-fetch is in flight on an entry whose status is `Success(d)`, the snapshot
keeps `Success(d)`), the terminal update writes only the status (and, on
success, `last_updated`), and the last update only resets `is_fetching`. -/
theorem c10_fetch_frame (q : Query TData) (r : Except String TData) (t : Int) :
    termStatus r ≠ Status.loading ∧
    (Query.fetch q r t).2 =
      [({ q.state with is_fetching := true }, q.subscribers.map (fun p => p.2)),
       ({ q.state with
            is_fetching := true, status := termStatus r,
            last_updated := termUpdated r t q.state.last_updated },
         q.subscribers.map (fun p => p.2)),
       ({ q.state with
            is_fetching := false, status := termStatus r,
            last_updated := termUpdated r t q.state.last_updated },
         q.subscribers.map (fun p => p.2))] ∧
    (Query.fetch q r t).1 =
      { q with state :=
          { q.state with
              is_fetching := false, status := termStatus r,
              last_updated := termUpdated r t q.state.last_updated } } := by
  cases r <;> simp [Query.fetch, Query.set_state, termStatus, termUpdated]

/-- The C1 failing input: one entry under key "posts", never fetched
(`last_updated = None`), with one observer callback attached. -/
def c1_sigma : ClientState Nat :=
  { heap := [{ state := { status := Status.loading, is_fetching := true, last_updated := none }
               query_fn := 0
               subscribers := [(0, 10)]
               query_key := "posts"
               cache_time := 300000
               timeout := none }]
    queries := [0]
    subscribers := []
    pending := []
    nextTimer := 0 }

/-- The C1 observer, bound to the entry at address 0. -/
def c1_sub : Subscriber := { query := 0, stale_time := 0, cache_time := 300000 }

/-- C1 (code bug): the observer's staleness check triggers a fetch
(`started = true`) and the spawned fetch completes successfully with data 42
(the trace's terminal notification carries `Success 42`), yet the shared
entry is untouched (`.1 = c1_sigma`) and the subsequent snapshot read
`get_result` still returns the OLD state, not `Success 42` with a non-null
`last_updated`: `Subscriber::fetch` runs `Query::fetch` on a by-value clone
(`src/src/lib.rs` line 389, marked `// >> ISSUE OCCURS HERE`), so the fetch
mutates a private copy, contradicting the claim. -/
theorem c1_subscriber_fetch_mutates_clone :
    (subscriber_fetch c1_sigma c1_sub 5 (Except.ok 42)).2.1 = true ∧
    ((subscriber_fetch c1_sigma c1_sub 5 (Except.ok 42)).2.2.map
      (fun p => p.1.status)).get? 1 = some (Status.success 42) ∧
    (subscriber_fetch c1_sigma c1_sub 5 (Except.ok 42)).1 = c1_sigma ∧
    get_result (subscriber_fetch c1_sigma c1_sub 5 (Except.ok 42)).1 c1_sub =
      some { status := Status.loading, is_fetching := true, last_updated := none } := by
  refine ⟨rfl, rfl, rfl, rfl⟩

/-- The C2 failing input: one entry with two subscriptions, observer A with
callback 10 and observer B with callback 11. -/
def c2_sigma : ClientState Nat :=
  { heap := [{ state := { status := Status.idle, is_fetching := false, last_updated := none }
               query_fn := 0
               subscribers := [(0, 10), (1, 11)]
               query_key := "posts"
               cache_time := 1000
               timeout := none }]
    queries := [0]
    subscribers := []
    pending := []
    nextTimer := 0 }

/-- C2 (code bug): with subscriptions `[(A, 10), (B, 11)]`, unsubscribing
callback 10 leaves the list `[(0, 10)]` — observer A (the one being
unsubscribed) is KEPT and observer B is removed, because
`Query::unsubscribe` filters with `cb == callback` instead of
`cb != callback` (`src/src/lib.rs` line 254); the claim's expected result
`[(1, 11)]` does not hold.  No GC timer is armed (the kept list is
non-empty). -/
theorem c2_unsubscribe_keeps_target :
    ((query_unsubscribe c2_sigma 0 10).heap.get? 0).map (fun q => q.subscribers) =
      some [(0, 10)] ∧
    ((query_unsubscribe c2_sigma 0 10).heap.get? 0).map (fun q => q.subscribers) ≠
      some [(1, 11)] ∧
    (query_unsubscribe c2_sigma 0 10).pending = [] := by
  refine ⟨rfl, by decide, rfl⟩

/-- The C3 failing input: two cache-level callbacks, 10 and 11. -/
def c3_sigma : ClientState Nat :=
  { heap := [], queries := [], subscribers := [10, 11], pending := [], nextTimer := 0 }

/-- C3 (code bug): `QueryClient::unsubscribe(10)` on cache-level subscriber
list `[10, 11]` yields `[10]` — the callback being unsubscribed is KEPT and
the other one removed, because the source `retain`s the callbacks equal to
the one passed (`src/src/lib.rs` line 158); the claim's expected result
`[11]` does not hold. -/
theorem c3_client_unsubscribe_keeps_target :
    (client_unsubscribe c3_sigma 10).subscribers = [10] ∧
    (client_unsubscribe c3_sigma 10).subscribers ≠ [11] := by
  refine ⟨rfl, by decide⟩

/-- C5: `Subscriber::fetch` (the observer's `fetch_if_stale`) starts a fetch
iff the bound entry's `last_updated` is unset or `now() - last_updated`
exceeds the observer's `stale_time`; otherwise it starts nothing, emits
nothing, and leaves the state unchanged, so repeated calls within the stale
window start no additional fetch. -/
theorem c5_fetch_if_stale_iff (σ : ClientState TData) (s : Subscriber) (tnow : Int)
    (r : Except String TData) (q : Query TData) (h : σ.heap.get? s.query = some q) :
    ((subscriber_fetch σ s tnow r).2.1 = true ↔
      (q.state.last_updated = none ∨
        ∃ lu, q.state.last_updated = some lu ∧ tnow - lu > s.stale_time)) ∧
    ((subscriber_fetch σ s tnow r).2.1 = false →
      (subscriber_fetch σ s tnow r).1 = σ ∧ (subscriber_fetch σ s tnow r).2.2 = []) := by
  have h' : σ.heap[s.query]? = some q := by simpa using h
  rcases hq : q.state.last_updated with _ | lu
  · simp [subscriber_fetch, h', hq]
  · by_cases hgt : tnow - lu > s.stale_time
    · simp [subscriber_fetch, h', hq, hgt]
    · simp [subscriber_fetch, h', hq, hgt]

/-- The C5 witness entry: fetched successfully at time 0. -/
def c5_q : Query Nat :=
  { state := { status := Status.success 7, is_fetching := false, last_updated := some 0 }
    query_fn := 0
    subscribers := [(0, 10)]
    query_key := "posts"
    cache_time := 300000
    timeout := none }

/-- The C5 witness state. -/
def c5_sigma : ClientState Nat :=
  { heap := [c5_q], queries := [0], subscribers := [], pending := [], nextTimer := 1 }

/-- The C5 witness observer, `stale_time = 3000`. -/
def c5_sub : Subscriber := { query := 0, stale_time := 3000, cache_time := 300000 }

/-- C5 witness: at `now() = 1000`, within the stale window of the successful
fetch at time 0, `Subscriber::fetch` starts no fetch and is a no-op. -/
theorem c5_fetch_if_stale_iff_witness :
    c5_sigma.heap.get? c5_sub.query = some c5_q ∧
    (((subscriber_fetch c5_sigma c5_sub 1000 (Except.ok 7)).2.1 = true ↔
      (c5_q.state.last_updated = none ∨
        ∃ lu, c5_q.state.last_updated = some lu ∧ 1000 - lu > c5_sub.stale_time)) ∧
     ((subscriber_fetch c5_sigma c5_sub 1000 (Except.ok 7)).2.1 = false →
      (subscriber_fetch c5_sigma c5_sub 1000 (Except.ok 7)).1 = c5_sigma ∧
      (subscriber_fetch c5_sigma c5_sub 1000 (Except.ok 7)).2.2 = [])) :=
  ⟨rfl, c5_fetch_if_stale_iff c5_sigma c5_sub 1000 (Except.ok 7) c5_q rfl⟩

/-- C9: `QueryClient::invalidate_queries` fetches the first entry registered
under the key whenever one exists — unconditionally, with no staleness check
(the conclusion holds for every `q`, whatever its `last_updated`), mutating
the shared cell to the fetch's final state and emitting the fetch's
notifications — and leaves the state entirely unchanged when no entry with
the key exists. -/
theorem c9_invalidate (σ : ClientState TData) (query_key : String)
    (r : Except String TData) (t : Int) :
    (findQuery σ query_key = none →
      invalidate_queries σ query_key r t = (σ, [])) ∧
    (∀ a q, findQuery σ query_key = some a → σ.heap.get? a = some q →
      invalidate_queries σ query_key r t =
        ({ σ with heap := σ.heap.set a (Query.fetch q r t).1 }, (Query.fetch q r t).2)) := by
  constructor
  · intro h
    simp [invalidate_queries, h]
  · intro a q h1 h2
    have h2' : σ.heap[a]? = some q := by simpa using h2
    simp [invalidate_queries, h1, h2']

/-- The C9 witness entry: recently fetched (not stale), under key "posts". -/
def c9_q : Query Nat :=
  { state := { status := Status.success 7, is_fetching := false, last_updated := some 100 }
    query_fn := 0
    subscribers := [(0, 10)]
    query_key := "posts"
    cache_time := 300000
    timeout := none }

/-- The C9 witness state. -/
def c9_sigma : ClientState Nat :=
  { heap := [c9_q], queries := [0], subscribers := [], pending := [], nextTimer := 1 }

/-- C9 witness: invalidating key "nope" (absent) changes nothing; invalidating
key "posts" re-fetches the fresh entry despite `last_updated = some 100`. -/
theorem c9_invalidate_witness :
    (findQuery c9_sigma "nope" = none ∧
      invalidate_queries c9_sigma "nope" (Except.ok (1 : Nat)) 101 = (c9_sigma, [])) ∧
    (findQuery c9_sigma "posts" = some 0 ∧
      c9_sigma.heap.get? 0 = some c9_q ∧
      invalidate_queries c9_sigma "posts" (Except.ok 1) 101 =
        ({ c9_sigma with heap := c9_sigma.heap.set 0 (Query.fetch c9_q (Except.ok 1) 101).1 },
          (Query.fetch c9_q (Except.ok 1) 101).2)) :=
  ⟨⟨rfl, (c9_invalidate c9_sigma "nope" (Except.ok 1) 101).1 rfl⟩,
   ⟨rfl, rfl, (c9_invalidate c9_sigma "posts" (Except.ok 1) 101).2 0 c9_q rfl rfl⟩⟩

/-- Helper: `find?` over a list extended by one element, when the predicate
fails on every original element. -/
lemma find?_append_singleton {α : Type} (l : List α) (x : α) (p : α → Bool)
    (h : ∀ a ∈ l, p a = false) :
    (l ++ [x]).find? p = if p x then some x else none := by
  induction l with
  | nil =>
      cases hpx : p x <;> simp [List.find?, hpx]
  | cons b bs ih =>
      have hb : ¬ (p b = true) := by simp [h b (by simp)]
      rw [List.cons_append, List.find?_cons_of_neg _ hb]
      exact ih fun a ha => h a (by simp [ha])

/-- Helper: after a cache miss on `q.query_key` pushes `q` at the end of the
heap and its address at the end of the `queries` vector, looking the same key
up finds exactly that address. -/
lemma findQuery_push (σ : ClientState TData) (q : Query TData)
    (hwf : ∀ a ∈ σ.queries, a < σ.heap.length)
    (hnone : findQuery σ q.query_key = none) :
    findQuery
        { σ with heap := σ.heap ++ [q], queries := σ.queries ++ [σ.heap.length] }
        q.query_key = some σ.heap.length := by
  unfold findQuery at *
  have hall : ∀ a ∈ σ.queries,
      (keyAt (σ.heap ++ [q]) a == some q.query_key) = false := by
    intro a ha
    have h1 := List.find?_eq_none.mp hnone a ha
    have h2 : keyAt (σ.heap ++ [q]) a = keyAt σ.heap a := by
      unfold keyAt
      rw [List.get?_append (hwf a ha)]
    rw [h2]
    exact Bool.eq_false_iff.mpr h1
  have hx : (keyAt (σ.heap ++ [q]) σ.heap.length == some q.query_key) = true := by
    simp [keyAt, List.get?_concat_length]
  rw [find?_append_singleton _ _ _ hall, hx]
  simp

/-- C6: `get_query` returns the existing entry's address when the key is
present (constructing nothing), and two `create_query_observer` calls for the
same key, the second on the state the first left, yield observers bound to
the identical heap cell, with the second lookup changing nothing. -/
theorem c6_same_entry_shared (σ : ClientState TData) (o1 o2 : QueryOptions)
    (hk : o2.query_key = o1.query_key)
    (hwf : ∀ a ∈ σ.queries, a < σ.heap.length) :
    (∀ a, findQuery σ o1.query_key = some a → get_query σ o1 = (σ, a)) ∧
    ((create_query_observer (create_query_observer σ o1).1 o2).2.query =
        (create_query_observer σ o1).2.query ∧
      (create_query_observer (create_query_observer σ o1).1 o2).1 =
        (create_query_observer σ o1).1) := by
  constructor
  · intro a h
    simp [get_query, h]
  · rcases hfq : findQuery σ o1.query_key with _ | a
    · have hkey : ((loading_query o1 : Query TData)).query_key = o1.query_key := by
        simp [loading_query, create_query]
      have hnone : findQuery σ ((loading_query o1 : Query TData)).query_key = none := by
        rw [hkey]; exact hfq
      have hpush := findQuery_push σ (loading_query o1) hwf hnone
      have h1 : create_query_observer σ o1 =
          ({ σ with
              heap := σ.heap ++ [loading_query o1]
              queries := σ.queries ++ [σ.heap.length] },
            { query := σ.heap.length, stale_time := o1.stale_time
              cache_time := o1.cache_time }) := by
        simp [create_query_observer, get_query, hfq]
      have h2 : findQuery
          { σ with
              heap := σ.heap ++ [loading_query o1]
              queries := σ.queries ++ [σ.heap.length] } o2.query_key
          = some σ.heap.length := by
        rw [hk, ← hkey]
        exact hpush
      rw [h1]
      simp [create_query_observer, get_query, h2]
    · have h2 : findQuery σ o2.query_key = some a := by
        rw [hk]; exact hfq
      have h1 : create_query_observer σ o1 =
          (σ, { query := a, stale_time := o1.stale_time, cache_time := o1.cache_time }) := by
        simp [create_query_observer, get_query, hfq]
      rw [h1]
      simp [create_query_observer, get_query, h2]

/-- The C6 witness options for key "posts". -/
def c6_opts : QueryOptions :=
  { query_key := "posts", query_fn := 5, stale_time := 0, cache_time := 1000 }

/-- The C6 witness state: the empty cache. -/
def c6_sigma : ClientState Nat :=
  { heap := [], queries := [], subscribers := [], pending := [], nextTimer := 0 }

/-- C6 witness: on an empty cache, observing "posts" twice binds both
observers to the same cell and the second observe changes nothing. -/
theorem c6_same_entry_shared_witness :
    (c6_opts.query_key = c6_opts.query_key ∧
      ∀ a ∈ c6_sigma.queries, a < c6_sigma.heap.length) ∧
    ((∀ a, findQuery c6_sigma c6_opts.query_key = some a →
        get_query c6_sigma c6_opts = (c6_sigma, a)) ∧
      ((create_query_observer (create_query_observer c6_sigma c6_opts).1 c6_opts).2.query =
          (create_query_observer c6_sigma c6_opts).2.query ∧
        (create_query_observer (create_query_observer c6_sigma c6_opts).1 c6_opts).1 =
          (create_query_observer c6_sigma c6_opts).1)) :=
  ⟨⟨rfl, by simp [c6_sigma]⟩,
    c6_same_entry_shared c6_sigma c6_opts c6_opts rfl (by simp [c6_sigma])⟩

/-- The C8 counterexample start state: one entry under key "posts" with no
subscribers and no timer, one cache-level callback 20. -/
def c8_sigma0 : ClientState Nat :=
  { heap := [{ state := { status := Status.idle, is_fetching := false, last_updated := none }
               query_fn := 0
               subscribers := []
               query_key := "posts"
               cache_time := 1000
               timeout := none }]
    queries := [0]
    subscribers := [20]
    pending := []
    nextTimer := 0 }

/-- C8 counterexample step 1: an unsubscribe leaving the list empty arms
timer 0. -/
def c8_sigma1 : ClientState Nat := query_unsubscribe c8_sigma0 0 99

/-- C8 counterexample step 2: a second unsubscribe arms timer 1, overwriting
the stored handle without clearing timer 0. -/
def c8_sigma2 : ClientState Nat := query_unsubscribe c8_sigma1 0 99

/-- C8 counterexample step 3: an observer subscribes, cancelling only the
stored timer 1. -/
def c8_sigma3 : ClientState Nat := query_subscribe c8_sigma2 0 7 17

/-- C8 counterexample: after two empty-list unsubscribes, TWO timers are
pending for the same entry (falsifying "at most one timer is pending per
Entry, arming a new one superseding/cancelling any prior one"); a subscriber
then attaches, which cancels only timer 1; firing the still-pending timer 0
removes the entry from the cache and emits the cache-level notification even
though the entry's observer list is `[(7, 17)]` ≠ [] at fire time (falsifying
"removed ... only if the Entry's observer list is still empty at fire time"
and "any Observer subscribing before the timer fires cancels the pending
timer so no eviction occurs"). -/
theorem c8_counterexample :
    c8_sigma2.pending = [(0, "posts"), (1, "posts")] ∧
    (c8_sigma3.heap.get? 0).map (fun q => q.subscribers) = some [(7, 17)] ∧
    c8_sigma3.pending = [(0, "posts")] ∧
    (fireTimer c8_sigma3 0).1.queries = [] ∧
    (fireTimer c8_sigma3 0).2 = [20] :=
  ⟨rfl, rfl, rfl, rfl, rfl⟩

/-- C8 as amended: (a) a pending timer firing removes every query under the
captured key from the cache vector and notifies all cache-level subscribers
UNCONDITIONALLY — there is no re-check of the entry's observer list at fire
time; (b) `Query::subscribe` cancels exactly the timer whose handle is stored
in the entry's `timeout` field, i.e. the most recently armed one; (c) arming
a new timer appends a fresh pending timer while leaving every previously
pending timer in place (and merely overwrites the stored handle), so several
timers can be pending for one entry. -/
theorem c8_amended_timer_behavior (σ : ClientState TData) (a tid sub cb : Nat)
    (q : Query TData) (key : String) :
    (σ.pending.find? (fun p => p.1 == tid) = some (tid, key) →
      fireTimer σ tid =
        ({ σ with
            queries := σ.queries.filter (fun b => ¬ (keyAt σ.heap b == some key))
            pending := σ.pending.filter (fun p => p.1 ≠ tid) },
          σ.subscribers)) ∧
    (σ.heap.get? a = some q → q.timeout = some tid →
      (query_subscribe σ a sub cb).pending = σ.pending.filter (fun p => p.1 ≠ tid)) ∧
    (σ.heap.get? a = some q →
      (schedule_query_cleanup σ a).pending = σ.pending ++ [(σ.nextTimer, q.query_key)]) := by
  refine ⟨?_, ?_, ?_⟩
  · intro h
    simp [fireTimer, h]
  · intro h ht
    have h' : σ.heap[a]? = some q := by simpa using h
    obtain ⟨hlen, -⟩ := List.getElem?_eq_some_iff.mp h'
    simp [query_subscribe, unschedule_query_cleanup, h', ht, hlen]
  · intro h
    have h' : σ.heap[a]? = some q := by simpa using h
    simp [schedule_query_cleanup, h']

/-- The C8 witness entry: empty observer list, stored timer handle 0, under
key "k". -/
def c8w_q : Query Nat :=
  { state := { status := Status.idle, is_fetching := false, last_updated := none }
    query_fn := 0
    subscribers := []
    query_key := "k"
    cache_time := 5
    timeout := some 0 }

/-- The C8 witness state: timer 0 pending for key "k", one cache-level
callback 3. -/
def c8w_sigma : ClientState Nat :=
  { heap := [c8w_q], queries := [0], subscribers := [3], pending := [(0, "k")], nextTimer := 1 }

/-- C8 amended witness: firing pending timer 0 evicts the "k" entry and
notifies callback 3; subscribing cancels the stored timer 0; arming a new
timer appends timer 1 while timer 0 stays pending. -/
theorem c8_amended_timer_behavior_witness :
    (c8w_sigma.pending.find? (fun p => p.1 == 0) = some (0, "k") ∧
      fireTimer c8w_sigma 0 = ({ c8w_sigma with queries := [], pending := [] }, [3])) ∧
    (c8w_sigma.heap.get? 0 = some c8w_q ∧ c8w_q.timeout = some 0 ∧
      (query_subscribe c8w_sigma 0 9 19).pending = []) ∧
    (c8w_sigma.heap.get? 0 = some c8w_q ∧
      (schedule_query_cleanup c8w_sigma 0).pending = [(0, "k"), (1, "k")]) :=
  ⟨⟨rfl, (c8_amended_timer_behavior c8w_sigma 0 0 9 19 c8w_q "k").1 rfl⟩,
   ⟨rfl, rfl, (c8_amended_timer_behavior c8w_sigma 0 0 9 19 c8w_q "k").2.1 rfl rfl⟩,
   ⟨rfl, (c8_amended_timer_behavior c8w_sigma 0 0 9 19 c8w_q "k").2.2 rfl⟩⟩

end YewQuery
